import Mathlib

/-!
Verification of `ozpcenter/model_access.py` (cache-aside storefront and
metadata aggregation) and of the notification engine described by the
specification, against the repository's stated properties.

Conventions: Python strings become `String`, timestamps become either `Nat`
keys or an explicit `DateTime` record, Django querysets become `List`s in
storage order, the Django cache becomes an association list, and a Python
exception raised by a collaborator becomes an `Except String` value.
-/

namespace Ozp

/-- A word character in the sense of the Python regex `\W`: alphanumeric or
underscore.  `re.sub` with `\W+` deletes exactly the non-word characters. -/
def isWordChar (c : Char) : Bool := c.isAlphanum || c == '_'

/-- `make_keysafe(key)` from `ozpcenter/model_access.py`:
`re.sub(r'\W+', '', key).lower()` — delete every non-word character, then
lower-case the remainder. -/
def make_keysafe (key : String) : String :=
  String.mk ((key.data.filter isWordChar).map Char.toLower)

/-- The key normalisation exactly as the specification words it: lower-case
the input and strip every character that is not alphanumeric (so, unlike the
code, an underscore is stripped too). -/
def keysafeSpec (key : String) : String :=
  String.mk ((key.data.filter Char.isAlphanum).map Char.toLower)

/-- An independent single-pass formulation of the amended behaviour: walk the
characters, keeping the lower-cased form of each word character. -/
def keysafeOnePass : List Char → List Char
  | [] => []
  | c :: cs => if isWordChar c then c.toLower :: keysafeOnePass cs else keysafeOnePass cs

theorem keysafeOnePass_eq (l : List Char) :
    keysafeOnePass l = (l.filter isWordChar).map Char.toLower := by
  induction l with
  | nil => rfl
  | cons c cs ih =>
    by_cases h : isWordChar c = true
    · simp [keysafeOnePass, List.filter_cons, h, ih]
    · simp [keysafeOnePass, List.filter_cons, h, ih]

/-- A catalog listing as `get_storefront` sees it: the flag, the two sort
fields and an identifier.  Visibility filtering (`for_user`) is performed by
the storage collaborator, so it is a parameter of the environment below. -/
structure Listing where
  id : Nat
  is_featured : Bool
  approved_date : Nat
  avg_rate : Nat
  deriving DecidableEq, Repr

/-- A user profile: `username`, the titles of `organizations.all()` in
iteration order, and the title of the `access_control` level. -/
structure Profile where
  username : String
  organizations : List String
  access_control : String
  deriving DecidableEq, Repr

/-- The three-part storefront bundle built on a cache miss. -/
structure Bundle where
  featured : List Listing
  recent : List Listing
  most_popular : List Listing
  deriving DecidableEq, Repr

/-- The shared Django cache, restricted to storefront entries: an association
list from key strings to bundles, newest entry first. -/
abbrev Cache : Type := List (String × Bundle)

/-- The environment of `get_storefront`: the `Profile` table and the
`Listing.objects.for_user` collaborator, which returns the listings visible
to a username in storage order, or raises (models a backing-store fault). -/
structure Env where
  profiles : List Profile
  for_user : String → Except String (List Listing)

/-- Outcome of one `get_storefront` call: a raised (uncaught) exception, a
normal bundle return, or the structured error dictionary built in the
`except` branch. -/
inductive SFOutcome where
  | raised (detail : String)
  | ok (data : Bundle)
  | err (msg : String)
  deriving DecidableEq, Repr

/-- `orgs = ''; for i in user.organizations.all(): orgs += '%s_' % i.title` -/
def orgsConcat (orgs : List String) : String :=
  orgs.foldl (fun acc t => acc ++ t ++ "_") ""

/-- `key = 'storefront:%s:%s' % (orgs_key, access_control_key)` -/
def storefront_key (p : Profile) : String :=
  "storefront:" ++ make_keysafe (orgsConcat p.organizations) ++ ":"
    ++ make_keysafe p.access_control

/-- Insertion of one element into a list sorted by the Boolean relation
`le`, used to model a Django `order_by`. -/
def insertSorted (le : α → α → Bool) (x : α) : List α → List α
  | [] => [x]
  | y :: ys => if le x y then x :: y :: ys else y :: insertSorted le x ys

/-- Insertion sort by the Boolean relation `le`. -/
def sortListBy (le : α → α → Bool) : List α → List α
  | [] => []
  | x :: xs => insertSorted le x (sortListBy le xs)

/-- `order_by(field)`: ascending sort of the visible listings by a `Nat`
sort key. -/
def order_by (key : Listing → Nat) (l : List Listing) : List Listing :=
  sortListBy (fun a b => decide (key a ≤ key b)) l

/-- The bundle composed on a cache miss: featured flagged listings capped at
12; all visible listings ascending by `approved_date` capped at 24; all
visible listings ascending by `avg_rate` capped at 36. -/
def storefrontBundle (listings : List Listing) : Bundle :=
  ⟨(listings.filter (fun l => l.is_featured)).take 12,
   (order_by (fun l => l.approved_date) listings).take 24,
   (order_by (fun l => l.avg_rate) listings).take 36⟩

/-- The body of the `try` block of `get_storefront`: the three capped
queries and the bundle they compose.  Any storage fault escapes as
`Except.error`. -/
def storefront_fetch (env : Env) (username : String) : Except String Bundle :=
  match env.for_user username with
  | .error e => .error e
  | .ok listings => .ok (storefrontBundle listings)

/-- The cache-aside body of `get_storefront` once the profile is resolved:
probe the cache under the derived key; on a hit return the cached bundle
verbatim, on a miss run the `try` block, caching only on success. -/
def storefront_serve (env : Env) (username : String) (user : Profile)
    (c : Cache) : SFOutcome × Cache :=
  match List.lookup (storefront_key user) c with
  | some data => (.ok data, c)
  | none =>
      match storefront_fetch env username with
      | .error e => (.err ("Error getting storefront: " ++ e), c)
      | .ok data => (.ok data, (storefront_key user, data) :: c)

/-- `get_storefront(username)` from `ozpcenter/model_access.py`.  The profile
lookup happens before the cache probe and before the `try` block, so a
missing profile propagates as a raised exception; a fault inside the `try`
block is translated to the structured error and nothing is cached. -/
def get_storefront (env : Env) (username : String) (c : Cache) :
    SFOutcome × Cache :=
  match env.profiles.find? (fun p => p.username == username) with
  | none => (.raised "Profile matching query does not exist.", c)
  | some user => storefront_serve env username user c

/-- The metadata snapshot: the field projections of the five catalog
sources as `get_metadata` assembles them. -/
structure MetaRecords where
  categories : List (String × String)
  listing_types : List (String × String)
  agencies : List (String × String × String)
  contact_types : List (String × Bool)
  intents : List (String × String × String × String)
  deriving DecidableEq, Repr

/-- The environment of `get_metadata`: each catalog query either returns its
projected rows or raises. -/
structure MetaEnv where
  categories : Except String (List (String × String))
  listing_types : Except String (List (String × String))
  agencies : Except String (List (String × String × String))
  contact_types : Except String (List (String × Bool))
  intents : Except String (List (String × String × String × String))

/-- Outcome of one `get_metadata` call. -/
inductive MetaOutcome where
  | ok (data : MetaRecords)
  | err (msg : String)
  deriving DecidableEq, Repr

/-- The metadata cache: association list under the single key `metadata`. -/
abbrev MetaCache : Type := List (String × MetaRecords)

/-- The body of the `try` block of `get_metadata`: the five queries in
program order; the first fault escapes. -/
def metadata_fetch (env : MetaEnv) : Except String MetaRecords := do
  let cats ← env.categories
  let lts ← env.listing_types
  let ags ← env.agencies
  let cts ← env.contact_types
  let ints ← env.intents
  pure ⟨cats, lts, ags, cts, ints⟩

/-- `get_metadata()` from `ozpcenter/model_access.py`: single global key,
cache-aside, structured error on fault with nothing cached. -/
def get_metadata (env : MetaEnv) (c : MetaCache) : MetaOutcome × MetaCache :=
  match List.lookup "metadata" c with
  | some data => (.ok data, c)
  | none =>
      match metadata_fetch env with
      | .error e => (.err ("Error getting metadata: " ++ e), c)
      | .ok data => (.ok data, ("metadata", data) :: c)

/-- Modelled from the spec: a timestamp with the seven fields the ISO-8601
rendering `YYYY-MM-DDTHH:MM:SS.ffffffZ` exposes.  The notification engine
itself is not under `src/`, only its tests are, so dates are modelled from
the specification. -/
structure DateTime where
  year : Nat
  month : Nat
  day : Nat
  hour : Nat
  minute : Nat
  second : Nat
  microsecond : Nat
  deriving DecidableEq, Repr

/-- Mixed-radix linearisation of a `DateTime`, used as the comparison key:
for calendar-valid fields it orders dates chronologically. -/
def DateTime.key (d : DateTime) : Nat :=
  (((((d.year * 13 + d.month) * 32 + d.day) * 24 + d.hour) * 60 + d.minute)
      * 60 + d.second) * 1000000 + d.microsecond

/-- Strict chronological comparison of two timestamps. -/
def dtLt (a b : DateTime) : Bool := decide (a.key < b.key)

/-- The decimal digit character for `n % 10`. -/
def digitChar10 (n : Nat) : Char :=
  if n % 10 = 0 then '0'
  else if n % 10 = 1 then '1'
  else if n % 10 = 2 then '2'
  else if n % 10 = 3 then '3'
  else if n % 10 = 4 then '4'
  else if n % 10 = 5 then '5'
  else if n % 10 = 6 then '6'
  else if n % 10 = 7 then '7'
  else if n % 10 = 8 then '8'
  else '9'

/-- Modelled from the spec: the ISO-8601 rendering of an exposed
`expires_date`, format `YYYY-MM-DDTHH:MM:SS.ffffffZ` (the serialiser is not
under `src/`). -/
def renderIso (d : DateTime) : String :=
  String.mk
    [digitChar10 (d.year / 1000), digitChar10 (d.year / 100),
     digitChar10 (d.year / 10), digitChar10 d.year, '-',
     digitChar10 (d.month / 10), digitChar10 d.month, '-',
     digitChar10 (d.day / 10), digitChar10 d.day, 'T',
     digitChar10 (d.hour / 10), digitChar10 d.hour, ':',
     digitChar10 (d.minute / 10), digitChar10 d.minute, ':',
     digitChar10 (d.second / 10), digitChar10 d.second, '.',
     digitChar10 (d.microsecond / 100000), digitChar10 (d.microsecond / 10000),
     digitChar10 (d.microsecond / 1000), digitChar10 (d.microsecond / 100),
     digitChar10 (d.microsecond / 10), digitChar10 d.microsecond, 'Z']

/-- Recogniser for the shape `YYYY-MM-DDTHH:MM:SS.ffffffZ`: 27 characters,
digits in the numeric positions and the fixed punctuation in between. -/
def isIsoZ (s : String) : Bool :=
  match s.data with
  | [y1, y2, y3, y4, s1, o1, o2, s2, d1, d2, t1, h1, h2, c1, i1, i2, c2,
     e1, e2, p1, u1, u2, u3, u4, u5, u6, z1] =>
      y1.isDigit && y2.isDigit && y3.isDigit && y4.isDigit && s1 == '-' &&
      o1.isDigit && o2.isDigit && s2 == '-' && d1.isDigit && d2.isDigit &&
      t1 == 'T' && h1.isDigit && h2.isDigit && c1 == ':' &&
      i1.isDigit && i2.isDigit && c2 == ':' && e1.isDigit && e2.isDigit &&
      p1 == '.' && u1.isDigit && u2.isDigit && u3.isDigit && u4.isDigit &&
      u5.isDigit && u6.isDigit && z1 == 'Z'
  | _ => false

/-- Modelled from the spec: a notification record with the externally exposed
fields `id`, `author`, `listing` (nullable), `created_date`, `message`,
`expires_date`. -/
structure Notification where
  id : Nat
  author : String
  listing : Option Nat
  created_date : DateTime
  message : String
  expires_date : DateTime
  deriving DecidableEq, Repr

/-- Modelled from the spec: the NotificationEngine's persistent state — the
notification table, the append-only set of per-(user, notification)
dismissal markers, and the next id to assign on create. -/
structure NotifState where
  notifications : List Notification
  dismissals : List (String × Nat)
  nextId : Nat
  deriving DecidableEq, Repr

/-- Audience membership, `elig user n`: whether notification `n` is
addressed to `user` (global scope, user's organizations, or a listing the
user authored/owns).  Audience resolution is a collaborator, so it is kept
abstract. -/
abbrev Audience : Type := String → Notification → Bool

/-- The self-feed ordering parameter: absent, `-created_date`, or
`created_date`. -/
inductive FeedOrder where
  | default
  | descCreated
  | ascCreated
  deriving DecidableEq, Repr

/-- Ascending feed order: by `created_date`, ties broken by ascending id,
giving a stable total order. -/
def feedLe (a b : Notification) : Bool :=
  decide (a.created_date.key < b.created_date.key) ||
    (decide (a.created_date.key = b.created_date.key) && decide (a.id ≤ b.id))

/-- Modelled from the spec: the notifications addressed to `user` that the
user has not dismissed, in table order. -/
def selfFeedPool (elig : Audience) (st : NotifState) (user : String) :
    List Notification :=
  st.notifications.filter
    (fun n => elig user n && !(decide ((user, n.id) ∈ st.dismissals)))

/-- Modelled from the spec: `listSelfFeed(user, ordering)` — all
non-dismissed notifications addressed to the user, regardless of
pending/expired state; descending `created_date` by default and for
`-created_date`, ascending for explicit `created_date`. -/
def listSelfFeed (elig : Audience) (st : NotifState) (user : String)
    (ord : FeedOrder) : List Notification :=
  match ord with
  | .ascCreated => sortListBy feedLe (selfFeedPool elig st user)
  | _ => (sortListBy feedLe (selfFeedPool elig st user)).reverse

/-- Outcome of a dismiss call: 204 no-content on success, lookup failure on
a non-existent id. -/
inductive DismissOutcome where
  | noContent
  | notFound
  deriving DecidableEq, Repr

/-- Modelled from the spec: `dismiss(user, notificationId)` idempotently
records a NotificationDismissal and returns the no-content signal; it
succeeds regardless of the notification's pending/expired state, and a
non-existent id is a lookup failure. -/
def dismiss (st : NotifState) (user : String) (nid : Nat) :
    DismissOutcome × NotifState :=
  if st.notifications.any (fun n => n.id == nid) then
    (.noContent, ⟨st.notifications, (user, nid) :: st.dismissals, st.nextId⟩)
  else
    (.notFound, st)

/-- Result of a role-gated operation: 403 rejection with no data, or the
payload. -/
inductive Gate (α : Type) where
  | forbidden
  | ok (val : α)
  deriving DecidableEq, Repr

/-- Whether a notification matches an optional listing filter. -/
def matchesListing (f : Option Nat) (n : Notification) : Bool :=
  match f with
  | none => true
  | some lid => n.listing == some lid

/-- Modelled from the spec: `listPending(user, listingFilter)` — rejected
without the elevated role; otherwise the notifications with
`now < expires_date`, optionally narrowed to one listing. -/
def listPending (st : NotifState) (elevated : Bool) (now : DateTime)
    (f : Option Nat) : Gate (List Notification) :=
  if elevated then
    .ok (st.notifications.filter
      (fun n => dtLt now n.expires_date && matchesListing f n))
  else
    .forbidden

/-- Modelled from the spec: `listExpired(user, listingFilter)` — same role
gate, returns the notifications with `expires_date <= now`. -/
def listExpired (st : NotifState) (elevated : Bool) (now : DateTime)
    (f : Option Nat) : Gate (List Notification) :=
  if elevated then
    .ok (st.notifications.filter
      (fun n => !dtLt now n.expires_date && matchesListing f n))
  else
    .forbidden

/-- Modelled from the spec: `create(actor, message, expires_date, audience)`
— requires the elevated role, persists with `created_date = now` and a
fresh id, and returns the created record echoing the message. -/
def create (st : NotifState) (elevated : Bool) (actor : String)
    (message : String) (expires : DateTime) (now : DateTime)
    (aud : Option Nat) : Gate Notification × NotifState :=
  if elevated then
    let n : Notification := ⟨st.nextId, actor, aud, now, message, expires⟩
    (.ok n, ⟨st.notifications ++ [n], st.dismissals, st.nextId + 1⟩)
  else
    (.forbidden, st)

/-- Outcome of an update call. -/
inductive UpdateOutcome where
  | ok (n : Notification)
  | notFound
  deriving DecidableEq, Repr

/-- Modelled from the spec: `update(actor, notificationId, fields)` —
mutates `expires_date` of an existing notification; a non-existent id is a
lookup failure; no role restriction beyond authentication. -/
def update (st : NotifState) (nid : Nat) (expires : DateTime) :
    UpdateOutcome × NotifState :=
  match st.notifications.find? (fun n => n.id == nid) with
  | none => (.notFound, st)
  | some n0 =>
      (.ok ⟨n0.id, n0.author, n0.listing, n0.created_date, n0.message, expires⟩,
       ⟨st.notifications.map (fun n =>
          if n.id == nid then
            ⟨n.id, n.author, n.listing, n.created_date, n.message, expires⟩
          else n),
        st.dismissals, st.nextId⟩)

/-- One engine mutation, for stating properties over all later states. -/
inductive EngineOp where
  | dismissOp (user : String) (nid : Nat)
  | createOp (elevated : Bool) (actor : String) (message : String)
      (expires : DateTime) (now : DateTime) (aud : Option Nat)
  | updateOp (nid : Nat) (expires : DateTime)

/-- Apply one engine mutation, keeping only the resulting state. -/
def applyOp (st : NotifState) (op : EngineOp) : NotifState :=
  match op with
  | .dismissOp u i => (dismiss st u i).2
  | .createOp e a m x n d => (create st e a m x n d).2
  | .updateOp i x => (update st i x).2

/-- Apply a sequence of engine mutations in order. -/
def applyOps (st : NotifState) (ops : List EngineOp) : NotifState :=
  ops.foldl applyOp st

/-! ### Concrete instances used by the witnesses and counterexamples -/

/-- Audience function making every notification visible to every user. -/
def eligAll : Audience := fun _ _ => true

/-- A reference "current time" for the concrete checks. -/
def nowW : DateTime := ⟨2, 1, 1, 0, 0, 0, 0⟩

/-- A timestamp strictly after `nowW`. -/
def futW : DateTime := ⟨3, 1, 1, 0, 0, 0, 0⟩

/-- Notification 1, earliest `created_date`. -/
def notif1 : Notification := ⟨1, "wsmith", none, ⟨1, 1, 1, 0, 0, 0, 0⟩, "m1", futW⟩

/-- Notification 2, middle `created_date`. -/
def notif2 : Notification := ⟨2, "wsmith", none, ⟨1, 1, 2, 0, 0, 0, 0⟩, "m2", futW⟩

/-- Notification 5, latest `created_date`. -/
def notif5 : Notification := ⟨5, "wsmith", none, ⟨1, 1, 3, 0, 0, 0, 0⟩, "m5", futW⟩

/-- The seeded engine state of the concrete scenario: ids 1, 2, 5 with
ascending `created_date`, no dismissals. -/
def st3 : NotifState := ⟨[notif1, notif2, notif5], [], 6⟩

/-- The state after `wsmith` dismisses notification 5 in `st3`. -/
def st3d : NotifState := ⟨[notif1, notif2, notif5], [("wsmith", 5)], 6⟩

/-- A pending notification (expires after `nowW`). -/
def notifP : Notification := ⟨1, "bigbrother", none, ⟨1, 1, 1, 0, 0, 0, 0⟩, "p", ⟨3, 1, 1, 0, 0, 0, 0⟩⟩

/-- An expired notification (expires before `nowW`). -/
def notifX : Notification := ⟨2, "bigbrother", none, ⟨1, 1, 2, 0, 0, 0, 0⟩, "x", ⟨1, 6, 1, 0, 0, 0, 0⟩⟩

/-- Engine state holding one pending and one expired notification. -/
def stPX : NotifState := ⟨[notifP, notifX], [], 3⟩

/-- A profile whose organization titles are "A" then "B". -/
def profA : Profile := ⟨"alice", ["A", "B"], "u"⟩

/-- A profile with the same organization set in the other order. -/
def profB : Profile := ⟨"bob", ["B", "A"], "u"⟩

/-- A second profile with the same organization sequence as `profA`. -/
def profA2 : Profile := ⟨"alice2", ["A", "B"], "u"⟩

/-- A featured listing. -/
def listW1 : Listing := ⟨1, true, 5, 3⟩

/-- A non-featured listing, approved earlier, rated higher. -/
def listW2 : Listing := ⟨2, false, 2, 7⟩

/-- Environment with one profile and a healthy storage collaborator. -/
def envW : Env := ⟨[profA], fun _ => .ok [listW1, listW2]⟩

/-- Environment whose storage collaborator raises. -/
def envErr : Env := ⟨[profA], fun _ => .error "db down"⟩

/-- Environment with an empty profile table. -/
def envNone : Env := ⟨[], fun _ => .ok []⟩

/-- Metadata environment whose first catalog query raises. -/
def metaEnvErr : MetaEnv := ⟨.error "db down", .ok [], .ok [], .ok [], .ok []⟩

/-- The bundle `get_storefront` builds for `envW`. -/
def bundleW : Bundle := storefrontBundle [listW1, listW2]

/-- The cache after the first successful `get_storefront` call on `envW`. -/
def cacheW : Cache := [(storefront_key profA, bundleW)]

/-! ### Helper lemmas about the insertion sort and the renderers -/

theorem insertSorted_perm (le : α → α → Bool) (x : α) (l : List α) :
    (insertSorted le x l).Perm (x :: l) := by
  induction l with
  | nil => exact List.Perm.refl _
  | cons y ys ih =>
    unfold insertSorted
    by_cases h : le x y = true
    · rw [if_pos h]
    · rw [if_neg h]
      exact (ih.cons y).trans (List.Perm.swap x y ys)

theorem mem_insertSorted (le : α → α → Bool) (x a : α) (l : List α) :
    a ∈ insertSorted le x l ↔ a ∈ x :: l :=
  (insertSorted_perm le x l).mem_iff

theorem sortListBy_perm (le : α → α → Bool) (l : List α) :
    (sortListBy le l).Perm l := by
  induction l with
  | nil => exact List.Perm.refl _
  | cons x xs ih =>
    exact (insertSorted_perm le x (sortListBy le xs)).trans (ih.cons x)

theorem mem_sortListBy (le : α → α → Bool) (a : α) (l : List α) :
    a ∈ sortListBy le l ↔ a ∈ l :=
  (sortListBy_perm le l).mem_iff

theorem insertSorted_pairwise (le : α → α → Bool)
    (htot : ∀ a b, le a b = true ∨ le b a = true)
    (htrans : ∀ a b c, le a b = true → le b c = true → le a c = true)
    (x : α) (l : List α) (h : l.Pairwise (fun a b => le a b = true)) :
    (insertSorted le x l).Pairwise (fun a b => le a b = true) := by
  induction l with
  | nil => simp [insertSorted]
  | cons y ys ih =>
    rcases List.pairwise_cons.mp h with ⟨hy, hys⟩
    unfold insertSorted
    by_cases hxy : le x y = true
    · rw [if_pos hxy]
      refine List.pairwise_cons.mpr ⟨?_, h⟩
      intro z hz
      rcases List.mem_cons.mp hz with rfl | hz
      · exact hxy
      · exact htrans x y z hxy (hy z hz)
    · rw [if_neg hxy]
      refine List.pairwise_cons.mpr ⟨?_, ih hys⟩
      intro z hz
      rcases List.mem_cons.mp ((mem_insertSorted le x z ys).mp hz) with hz0 | hz
      · rw [hz0]
        rcases htot x y with h1 | h1
        · exact absurd h1 hxy
        · exact h1
      · exact hy z hz

theorem sortListBy_pairwise (le : α → α → Bool)
    (htot : ∀ a b, le a b = true ∨ le b a = true)
    (htrans : ∀ a b c, le a b = true → le b c = true → le a c = true)
    (l : List α) :
    (sortListBy le l).Pairwise (fun a b => le a b = true) := by
  induction l with
  | nil => simp [sortListBy]
  | cons x xs ih => exact insertSorted_pairwise le htot htrans x _ ih

theorem order_by_perm (key : Listing → Nat) (l : List Listing) :
    (order_by key l).Perm l :=
  sortListBy_perm _ l

theorem order_by_sorted (key : Listing → Nat) (l : List Listing) :
    (order_by key l).Pairwise (fun a b => key a ≤ key b) := by
  have h := sortListBy_pairwise (fun a b => decide (key a ≤ key b))
    (fun a b => by simp only [decide_eq_true_eq]; omega)
    (fun a b c => by simp only [decide_eq_true_eq]; omega) l
  exact h.imp (fun hab => of_decide_eq_true hab)

theorem feedLe_total (a b : Notification) :
    feedLe a b = true ∨ feedLe b a = true := by
  unfold feedLe
  simp only [Bool.or_eq_true, Bool.and_eq_true, decide_eq_true_eq]
  omega

theorem feedLe_trans (a b c : Notification) (h1 : feedLe a b = true)
    (h2 : feedLe b c = true) : feedLe a c = true := by
  unfold feedLe at h1 h2 ⊢
  simp only [Bool.or_eq_true, Bool.and_eq_true, decide_eq_true_eq] at h1 h2 ⊢
  omega

theorem digitChar10_isDigit (n : Nat) : (digitChar10 n).isDigit = true := by
  unfold digitChar10
  repeat' split
  all_goals decide

theorem isIsoZ_renderIso (d : DateTime) : isIsoZ (renderIso d) = true := by
  simp [isIsoZ, renderIso, digitChar10_isDigit]

/-! ### Unfolding lemmas for the cache-aside reads -/

theorem get_storefront_some (env : Env) (username : String) (c : Cache)
    (user : Profile)
    (hu : env.profiles.find? (fun p => p.username == username) = some user) :
    get_storefront env username c = storefront_serve env username user c := by
  unfold get_storefront
  rw [hu]

theorem storefront_serve_hit (env : Env) (username : String) (user : Profile)
    (c : Cache) (d : Bundle)
    (hc : List.lookup (storefront_key user) c = some d) :
    storefront_serve env username user c = (.ok d, c) := by
  unfold storefront_serve
  rw [hc]

theorem storefront_serve_miss_ok (env : Env) (username : String)
    (user : Profile) (c : Cache) (listings : List Listing)
    (hc : List.lookup (storefront_key user) c = none)
    (hf : env.for_user username = .ok listings) :
    storefront_serve env username user c =
      (.ok (storefrontBundle listings),
       (storefront_key user, storefrontBundle listings) :: c) := by
  unfold storefront_serve storefront_fetch
  rw [hc, hf]

theorem storefront_serve_miss_err (env : Env) (username : String)
    (user : Profile) (c : Cache) (e : String)
    (hc : List.lookup (storefront_key user) c = none)
    (hf : env.for_user username = .error e) :
    storefront_serve env username user c =
      (.err ("Error getting storefront: " ++ e), c) := by
  unfold storefront_serve storefront_fetch
  rw [hc, hf]

theorem get_metadata_miss_err (env : MetaEnv) (c : MetaCache) (e : String)
    (hmiss : List.lookup "metadata" c = none)
    (hf : metadata_fetch env = .error e) :
    get_metadata env c = (.err ("Error getting metadata: " ++ e), c) := by
  unfold get_metadata
  rw [hmiss, hf]

/-! ### Helper lemmas about the notification engine -/

theorem applyOp_dismissals_mono (st : NotifState) (op : EngineOp)
    (p : String × Nat) (h : p ∈ st.dismissals) :
    p ∈ (applyOp st op).dismissals := by
  cases op with
  | dismissOp u i =>
    show p ∈ (dismiss st u i).2.dismissals
    unfold dismiss
    split
    · exact List.mem_cons_of_mem _ h
    · exact h
  | createOp e a m x n d =>
    show p ∈ (create st e a m x n d).2.dismissals
    unfold create
    split
    · exact h
    · exact h
  | updateOp i x =>
    show p ∈ (update st i x).2.dismissals
    unfold update
    split
    · exact h
    · exact h

theorem applyOps_dismissals_mono (ops : List EngineOp) :
    ∀ (st : NotifState) (p : String × Nat), p ∈ st.dismissals →
      p ∈ (applyOps st ops).dismissals := by
  induction ops with
  | nil => intro st p h; exact h
  | cons op ops ih =>
    intro st p h
    exact ih (applyOp st op) p (applyOp_dismissals_mono st op p h)

theorem feed_excludes_dismissed (elig : Audience) (st : NotifState)
    (user : String) (nid : Nat) (ord : FeedOrder)
    (h : (user, nid) ∈ st.dismissals) :
    nid ∉ (listSelfFeed elig st user ord).map (fun n => n.id) := by
  intro hmem
  obtain ⟨n, hn, hid⟩ := List.mem_map.mp hmem
  have hpool : n ∈ selfFeedPool elig st user := by
    cases ord with
    | ascCreated => exact (mem_sortListBy feedLe n _).mp hn
    | default =>
      exact (mem_sortListBy feedLe n _).mp (List.mem_reverse.mp hn)
    | descCreated =>
      exact (mem_sortListBy feedLe n _).mp (List.mem_reverse.mp hn)
  obtain ⟨-, hcond⟩ := List.mem_filter.mp hpool
  rw [Bool.and_eq_true] at hcond
  obtain ⟨-, hnd⟩ := hcond
  rw [Bool.not_eq_true'] at hnd
  subst hid
  exact of_decide_eq_false hnd h

theorem dismiss_preserves_other_feed (elig : Audience) (st : NotifState)
    (user v : String) (nid : Nat) (hv : v ≠ user) (ord : FeedOrder) :
    listSelfFeed elig
      ⟨st.notifications, (user, nid) :: st.dismissals, st.nextId⟩ v ord =
    listSelfFeed elig st v ord := by
  have hpool :
      selfFeedPool elig
        ⟨st.notifications, (user, nid) :: st.dismissals, st.nextId⟩ v =
      selfFeedPool elig st v := by
    unfold selfFeedPool
    apply List.filter_congr
    intro n hn
    have hiff : ((v, n.id) ∈ (user, nid) :: st.dismissals) ↔
        ((v, n.id) ∈ st.dismissals) := by
      constructor
      · intro hmem
        rcases List.mem_cons.mp hmem with heq | hmem
        · exact absurd (congrArg Prod.fst heq) hv
        · exact hmem
      · exact List.mem_cons_of_mem _
    show (elig v n && !decide ((v, n.id) ∈ (user, nid) :: st.dismissals)) =
      (elig v n && !decide ((v, n.id) ∈ st.dismissals))
    simp only [hiff]
  cases ord <;> simp only [listSelfFeed, hpool]

/-! ### Claim theorems -/

/-- C1: every notification returned by `listPending` has `expires_date`
strictly after `now`, every notification returned by `listExpired` has
`expires_date` at or before `now`, and in both cases the exposed
`expires_date` renders in the ISO-8601 shape `YYYY-MM-DDTHH:MM:SS.ffffffZ`. -/
theorem C1_pending_expired_partition (st : NotifState) (now : DateTime)
    (f : Option Nat) (lp lx : List Notification)
    (hp : listPending st true now f = .ok lp)
    (hx : listExpired st true now f = .ok lx) :
    (∀ n ∈ lp, now.key < n.expires_date.key ∧
      isIsoZ (renderIso n.expires_date) = true) ∧
    (∀ n ∈ lx, n.expires_date.key ≤ now.key ∧
      isIsoZ (renderIso n.expires_date) = true) := by
  simp only [listPending, if_true] at hp
  simp only [listExpired, if_true] at hx
  injection hp with hp
  injection hx with hx
  subst hp
  subst hx
  constructor
  · intro n hn
    obtain ⟨-, hc⟩ := List.mem_filter.mp hn
    rw [Bool.and_eq_true] at hc
    obtain ⟨h1, -⟩ := hc
    unfold dtLt at h1
    exact ⟨of_decide_eq_true h1, isIsoZ_renderIso _⟩
  · intro n hn
    obtain ⟨-, hc⟩ := List.mem_filter.mp hn
    rw [Bool.and_eq_true] at hc
    obtain ⟨h1, -⟩ := hc
    rw [Bool.not_eq_true'] at h1
    unfold dtLt at h1
    exact ⟨Nat.le_of_not_lt (of_decide_eq_false h1), isIsoZ_renderIso _⟩

/-- Witness for C1: a concrete state with one pending and one expired
notification, queried at `nowW` with the elevated role. -/
theorem C1_pending_expired_partition_witness :
    (nowW.key < notifP.expires_date.key ∧
      isIsoZ (renderIso notifP.expires_date) = true) ∧
    (notifX.expires_date.key ≤ nowW.key ∧
      isIsoZ (renderIso notifX.expires_date) = true) := by
  have h := C1_pending_expired_partition stPX nowW none [notifP] [notifX]
    (by decide) (by decide)
  exact ⟨h.1 notifP (by decide), h.2 notifX (by decide)⟩

/-- C2: once `dismiss(user, id)` succeeds with the no-content signal, `id`
never reappears in that user's self-feed under any later sequence of engine
operations, while every other user's self-feed is unchanged by the
dismissal. -/
theorem C2_dismiss_permanent (elig : Audience) (st st' : NotifState)
    (user : String) (nid : Nat)
    (h : dismiss st user nid = (.noContent, st')) :
    (∀ (ops : List EngineOp) (ord : FeedOrder),
        nid ∉ (listSelfFeed elig (applyOps st' ops) user ord).map
          (fun n => n.id)) ∧
    (∀ v : String, v ≠ user → ∀ ord : FeedOrder,
        listSelfFeed elig st' v ord = listSelfFeed elig st v ord) := by
  unfold dismiss at h
  split at h
  · rw [Prod.mk.injEq] at h
    obtain ⟨-, h2⟩ := h
    subst h2
    constructor
    · intro ops ord
      apply feed_excludes_dismissed
      apply applyOps_dismissals_mono
      exact List.mem_cons_self _ _
    · intro v hv ord
      exact dismiss_preserves_other_feed elig st user v nid hv ord
  · simp at h

/-- Witness for C2: `wsmith` dismisses id 5 in the seeded state; 5 is gone
from the `wsmith` feed and the `jones` feed is untouched. -/
theorem C2_dismiss_permanent_witness :
    (5 : Nat) ∉ (listSelfFeed eligAll (applyOps st3d []) "wsmith"
        .default).map (fun n => n.id) ∧
    listSelfFeed eligAll st3d "jones" .default =
      listSelfFeed eligAll st3 "jones" .default := by
  have h := C2_dismiss_permanent eligAll st3 st3d "wsmith" 5 (by decide)
  exact ⟨h.1 [] .default, h.2 "jones" (by decide) .default⟩

/-- C3: for every self-feed, `-created_date` yields the same sequence as the
default ordering, and `created_date` yields its exact reverse; concretely
the seeded feed for `wsmith` is `[5, 2, 1]` by default and `[1, 2, 5]`
ascending. -/
theorem C3_feed_ordering :
    (∀ (elig : Audience) (st : NotifState) (user : String),
        listSelfFeed elig st user .descCreated =
          listSelfFeed elig st user .default ∧
        listSelfFeed elig st user .ascCreated =
          (listSelfFeed elig st user .default).reverse) ∧
    ((listSelfFeed eligAll st3 "wsmith" .default).map (fun n => n.id) =
        [5, 2, 1] ∧
      (listSelfFeed eligAll st3 "wsmith" .ascCreated).map (fun n => n.id) =
        [1, 2, 5]) := by
  refine ⟨fun elig st user => ⟨rfl, ?_⟩, by decide, by decide⟩
  simp only [listSelfFeed, List.reverse_reverse]

/-- C4: without the elevated role, `listPending`, `listExpired` and `create`
are each rejected outright with no data and no state change; with it,
`create` with a message and a future `expires_date` returns the created
record echoing the message. -/
theorem C4_role_gate :
    (∀ (st : NotifState) (now : DateTime) (f : Option Nat),
        listPending st false now f = Gate.forbidden ∧
        listExpired st false now f = Gate.forbidden) ∧
    (∀ (st : NotifState) (actor msg : String) (x now : DateTime)
        (aud : Option Nat),
        (create st false actor msg x now aud).1 = Gate.forbidden ∧
        (create st false actor msg x now aud).2 = st) ∧
    (∀ (st : NotifState) (actor msg : String) (x now : DateTime)
        (aud : Option Nat),
        dtLt now x = true →
        (create st true actor msg x now aud).1 =
          Gate.ok ⟨st.nextId, actor, aud, now, msg, x⟩ ∧
        (⟨st.nextId, actor, aud, now, msg, x⟩ : Notification).message = msg) := by
  exact ⟨fun st now f => ⟨rfl, rfl⟩,
    fun st a m x n d => ⟨rfl, rfl⟩,
    fun st a m x n d hfut => ⟨rfl, rfl⟩⟩

/-- Witness for C4: the elevated `bigbrother` creation with a future
expiration echoes the submitted message. -/
theorem C4_role_gate_witness :
    (create st3 true "bigbrother" "a simple test" futW nowW none).1 =
      Gate.ok ⟨st3.nextId, "bigbrother", none, nowW, "a simple test", futW⟩ ∧
    (⟨st3.nextId, "bigbrother", none, nowW, "a simple test", futW⟩ :
        Notification).message = "a simple test" :=
  C4_role_gate.2.2 st3 "bigbrother" "a simple test" futW nowW none (by decide)

/-- C5: on a cache miss with a healthy storage collaborator,
`get_storefront` composes exactly the three subsets — listings flagged
`is_featured` capped at 12, all visible listings ascending by
`approved_date` capped at 24, all visible listings ascending by `avg_rate`
capped at 36 — and stores the bundle under the derived key before
returning it. -/
theorem C5_storefront_miss (env : Env) (username : String) (c : Cache)
    (user : Profile) (listings : List Listing)
    (hu : env.profiles.find? (fun p => p.username == username) = some user)
    (hmiss : List.lookup (storefront_key user) c = none)
    (hfetch : env.for_user username = .ok listings) :
    get_storefront env username c =
      (SFOutcome.ok (storefrontBundle listings),
       (storefront_key user, storefrontBundle listings) :: c) ∧
    (storefrontBundle listings).featured =
      (listings.filter (fun l => l.is_featured)).take 12 ∧
    ((storefrontBundle listings).recent =
        (order_by (fun l => l.approved_date) listings).take 24 ∧
      (order_by (fun l => l.approved_date) listings).Perm listings ∧
      (order_by (fun l => l.approved_date) listings).Pairwise
        (fun a b => a.approved_date ≤ b.approved_date)) ∧
    ((storefrontBundle listings).most_popular =
        (order_by (fun l => l.avg_rate) listings).take 36 ∧
      (order_by (fun l => l.avg_rate) listings).Perm listings ∧
      (order_by (fun l => l.avg_rate) listings).Pairwise
        (fun a b => a.avg_rate ≤ b.avg_rate)) := by
  refine ⟨?_, rfl, ⟨rfl, order_by_perm _ _, order_by_sorted _ _⟩,
    ⟨rfl, order_by_perm _ _, order_by_sorted _ _⟩⟩
  rw [get_storefront_some env username c user hu,
    storefront_serve_miss_ok env username user c listings hmiss hfetch]

/-- Witness for C5: the concrete environment `envW`, starting from an empty
cache. -/
theorem C5_storefront_miss_witness :
    get_storefront envW "alice" [] =
      (SFOutcome.ok (storefrontBundle [listW1, listW2]),
       (storefront_key profA, storefrontBundle [listW1, listW2]) :: []) ∧
    (storefrontBundle [listW1, listW2]).featured =
      (([listW1, listW2].filter (fun l => l.is_featured))).take 12 ∧
    ((storefrontBundle [listW1, listW2]).recent =
        (order_by (fun l => l.approved_date) [listW1, listW2]).take 24 ∧
      (order_by (fun l => l.approved_date) [listW1, listW2]).Perm
        [listW1, listW2] ∧
      (order_by (fun l => l.approved_date) [listW1, listW2]).Pairwise
        (fun a b => a.approved_date ≤ b.approved_date)) ∧
    ((storefrontBundle [listW1, listW2]).most_popular =
        (order_by (fun l => l.avg_rate) [listW1, listW2]).take 36 ∧
      (order_by (fun l => l.avg_rate) [listW1, listW2]).Perm
        [listW1, listW2] ∧
      (order_by (fun l => l.avg_rate) [listW1, listW2]).Pairwise
        (fun a b => a.avg_rate ≤ b.avg_rate)) :=
  C5_storefront_miss envW "alice" [] profA [listW1, listW2] rfl rfl rfl

/-- C6: a backing-store fault during aggregation yields the structured error
result — `Error getting storefront: <detail>`, resp. `Error getting
metadata: <detail>` — never a raised exception, and nothing is written to
the cache. -/
theorem C6_fault_structured_error :
    (∀ (env : Env) (username : String) (c : Cache) (user : Profile)
        (e : String),
        env.profiles.find? (fun p => p.username == username) = some user →
        List.lookup (storefront_key user) c = none →
        env.for_user username = .error e →
        get_storefront env username c =
          (SFOutcome.err ("Error getting storefront: " ++ e), c)) ∧
    (∀ (env : MetaEnv) (c : MetaCache) (e : String),
        List.lookup "metadata" c = none →
        metadata_fetch env = .error e →
        get_metadata env c =
          (MetaOutcome.err ("Error getting metadata: " ++ e), c)) := by
  constructor
  · intro env username c user e hu hmiss hf
    rw [get_storefront_some env username c user hu,
      storefront_serve_miss_err env username user c e hmiss hf]
  · intro env c e hmiss hf
    exact get_metadata_miss_err env c e hmiss hf

/-- Witness for C6: the faulting environments `envErr` and `metaEnvErr`. -/
theorem C6_fault_structured_error_witness :
    get_storefront envErr "alice" [] =
      (SFOutcome.err ("Error getting storefront: " ++ "db down"), []) ∧
    get_metadata metaEnvErr [] =
      (MetaOutcome.err ("Error getting metadata: " ++ "db down"), []) :=
  ⟨C6_fault_structured_error.1 envErr "alice" [] profA "db down" rfl rfl rfl,
   C6_fault_structured_error.2 metaEnvErr [] "db down" rfl rfl⟩

/-- C7 as stated is false at the input `"_"`: `make_keysafe` keeps the
underscore, which is not alphanumeric, because the Python class `\W` spares
every word character. -/
theorem C7_keysafe_counterexample :
    make_keysafe "_" = "_" ∧ keysafeSpec "_" = "" ∧
    make_keysafe "_" ≠ keysafeSpec "_" := by
  decide

/-- C7 amended: `make_keysafe` returns the input lower-cased with every
character that is neither alphanumeric nor an underscore removed, and it is
deterministic — identical inputs yield identical outputs. -/
theorem C7_keysafe_amended (s t : String) (h : s = t) :
    make_keysafe s = String.mk (keysafeOnePass s.data) ∧
    make_keysafe s = make_keysafe t := by
  constructor
  · unfold make_keysafe
    rw [keysafeOnePass_eq]
  · rw [h]

/-- Witness for the amended C7 at a concrete mixed input. -/
theorem C7_keysafe_amended_witness :
    make_keysafe "Org A-1_" = String.mk (keysafeOnePass "Org A-1_".data) ∧
    make_keysafe "Org A-1_" = make_keysafe "Org A-1_" :=
  C7_keysafe_amended "Org A-1_" "Org A-1_" rfl

/-- C8 as stated is false: the key concatenates organization titles in
membership iteration order without sorting or deduplication, so two users
with the same organization set, same access level, but a different
membership order get different keys. -/
theorem C8_key_counterexample :
    profA.organizations.Perm profB.organizations ∧
    profA.access_control = profB.access_control ∧
    storefront_key profA ≠ storefront_key profB := by
  refine ⟨?_, rfl, by decide⟩
  show ("A" :: "B" :: []).Perm ("B" :: "A" :: [])
  exact List.Perm.swap "B" "A" []

/-- C8 amended: the key is derived, under the namespace prefix
`storefront`, from the key-safe form of the organization titles
concatenated in membership iteration order and the access-control title;
two users with identical organization title sequences and the same access
level share one cache key. -/
theorem C8_key_amended (p q : Profile)
    (horg : p.organizations = q.organizations)
    (hac : p.access_control = q.access_control) :
    storefront_key p = storefront_key q ∧
    storefront_key p = "storefront:" ++
      make_keysafe (orgsConcat p.organizations) ++ ":" ++
      make_keysafe p.access_control := by
  unfold storefront_key
  rw [horg, hac]
  exact ⟨rfl, rfl⟩

/-- Witness for the amended C8: two distinct users with the same
organization sequence and access level. -/
theorem C8_key_amended_witness :
    storefront_key profA = storefront_key profA2 ∧
    storefront_key profA = "storefront:" ++
      make_keysafe (orgsConcat profA.organizations) ++ ":" ++
      make_keysafe profA.access_control :=
  C8_key_amended profA profA2 rfl rfl

/-- C9: when a call returns a bundle, the resulting cache holds that bundle
under the derived key; an immediately repeated call returns the identical
bundle with no cache write, and does so however the storage collaborator is
replaced — the hit path performs no storage query. -/
theorem C9_cache_hit (env : Env) (username : String) (c : Cache)
    (user : Profile) (b : Bundle) (c1 : Cache)
    (hu : env.profiles.find? (fun p => p.username == username) = some user)
    (h : get_storefront env username c = (SFOutcome.ok b, c1)) :
    List.lookup (storefront_key user) c1 = some b ∧
    get_storefront env username c1 = (SFOutcome.ok b, c1) ∧
    (∀ fu2 : String → Except String (List Listing),
        get_storefront ⟨env.profiles, fu2⟩ username c1 =
          (SFOutcome.ok b, c1)) := by
  have hlook : List.lookup (storefront_key user) c1 = some b := by
    rw [get_storefront_some env username c user hu] at h
    cases hc : List.lookup (storefront_key user) c with
    | some d =>
      rw [storefront_serve_hit env username user c d hc] at h
      rw [Prod.mk.injEq, SFOutcome.ok.injEq] at h
      obtain ⟨hb, hcc⟩ := h
      subst hb
      subst hcc
      exact hc
    | none =>
      cases hf : env.for_user username with
      | error e =>
        rw [storefront_serve_miss_err env username user c e hc hf] at h
        simp at h
      | ok listings =>
        rw [storefront_serve_miss_ok env username user c listings hc hf] at h
        rw [Prod.mk.injEq, SFOutcome.ok.injEq] at h
        obtain ⟨hb, hcc⟩ := h
        subst hb
        subst hcc
        simp [List.lookup]
  refine ⟨hlook, ?_, ?_⟩
  · rw [get_storefront_some env username c1 user hu,
      storefront_serve_hit env username user c1 b hlook]
  · intro fu2
    have hu2 : (Env.mk env.profiles fu2).profiles.find?
        (fun p => p.username == username) = some user := hu
    rw [get_storefront_some (Env.mk env.profiles fu2) username c1 user hu2,
      storefront_serve_hit (Env.mk env.profiles fu2) username user c1 b hlook]

/-- Witness for C9: the second call on `envW` after the first has populated
the cache, including with the storage collaborator replaced by a faulting
one. -/
theorem C9_cache_hit_witness :
    List.lookup (storefront_key profA) cacheW = some bundleW ∧
    get_storefront envW "alice" cacheW = (SFOutcome.ok bundleW, cacheW) ∧
    get_storefront ⟨envW.profiles, fun _ => Except.error "down"⟩ "alice"
        cacheW = (SFOutcome.ok bundleW, cacheW) := by
  have h := C9_cache_hit envW "alice" [] profA bundleW cacheW rfl rfl
  exact ⟨h.1, h.2.1, h.2.2 (fun _ => Except.error "down")⟩

/-- C10: when no profile matches the username, the lookup exception
propagates as a raised fault — not the structured error result — and the
cache is untouched, identity resolution preceding the cache probe and the
`try` block. -/
theorem C10_missing_profile (env : Env) (username : String) (c : Cache)
    (h : env.profiles.find? (fun p => p.username == username) = none) :
    get_storefront env username c =
      (SFOutcome.raised "Profile matching query does not exist.", c) := by
  unfold get_storefront
  rw [h]

/-- Witness for C10: the empty profile table. -/
theorem C10_missing_profile_witness :
    get_storefront envNone "alice" [] =
      (SFOutcome.raised "Profile matching query does not exist.", []) :=
  C10_missing_profile envNone "alice" [] rfl

end Ozp
